import Mathlib

/-!
Verification of the ginerr error-to-HTTP-response registry library.

The repository contains several generations of the same design:
* `V1`  — the string-keyed registry of `src/errors.go` (no context argument);
* `V0`  — an earlier string-keyed snapshot (`src/unnamed/part_001`) whose
  `RegisterErrorHandlerOn` computes its map key with `fmt.Sprintf("%R", *new(E))`;
* `V2`  — the context-threading string-keyed registry (`src/v2/errors.go`,
  first snapshot, `NewContextErrorResponseFrom`);
* `V2d` — the string-keyed registry with a `DefaultHandler` fallback
  (`src/v2/errors.go`, second snapshot, `defaultResponse`);
* `V3`  — the instance-keyed registry of `src/unnamed/part_000`, whose dispatch
  scans all entries with `errors.As` / `errors.Is` over the wrap chain.

Go values are modelled as follows: an `error` value is a `GoError` (a wrap
chain of dynamic-type name, identity and message), a possibly-nil error is an
`Option GoError` (`none` is the nil interface value, whose `%T` is `"<nil>"`),
an `any` response payload is a `GoValue`, a `context.Context` is an opaque
`Ctx`, and a Go `map` with string keys is a function `String → Option _`
(lookup by key; assignment is pointwise update).  Dispatch functions of the
string-keyed generations return `Option (Int × GoValue)`: `none` models a
run-time panic (the `err.(E)` type assertion failing), `some` a normal return.
-/

/-- Model of an opaque `any` response payload. -/
inductive GoValue where
  | nil
  | int (n : Int)
  | str (s : String)
deriving DecidableEq

/-- Model of a `context.Context`: opaque pass-through data. -/
abbrev Ctx := Nat

/-- The context.Background() value used by `NewErrorResponseFrom` in v2. -/
def ctxBackground : Ctx := 0

/-- Model of a non-nil Go `error` value: a wrap chain.  `ty` is the dynamic
type name `fmt.Sprintf("%T", e)`, `id` distinguishes different values of the
same type (e.g. two distinct `errors.New` results), `msg` is `e.Error()`,
and `wrap` carries the wrapped (`%w`) inner error exposed by `Unwrap`. -/
inductive GoError where
  | base (ty : String) (id : Nat) (msg : String)
  | wrap (ty : String) (id : Nat) (msg : String) (inner : GoError)
deriving DecidableEq

/-- Dynamic type name of an error, `fmt.Sprintf("%T", e)`. -/
def GoError.ty : GoError → String
  | .base t _ _ => t
  | .wrap t _ _ _ => t

/-- The `Error()` message of an error. -/
def GoError.msg : GoError → String
  | .base _ _ m => m
  | .wrap _ _ m _ => m

/-- `fmt.Sprintf("%T", err)` on a possibly-nil error: the nil interface
prints as `"<nil>"`. -/
def typeOfOpt : Option GoError → String
  | none => "<nil>"
  | some e => e.ty

/-- Model of the Go type parameter `E error` of a registration: either the
`error` interface itself (every chain element is assignable to it) or a
concrete error type with its `%T` name. -/
inductive ETy where
  | iface
  | conc (name : String)

/-- Is a single chain element assignable to the target type `E`?  This is the
per-element test of `errors.As`. -/
def matchesTy : ETy → GoError → Bool
  | .iface, _ => true
  | .conc t, e => decide (e.ty = t)

/-- `errors.Is(e, target)`: `e == target` or `target` appears in the wrap
chain of `e` (comparison is Go `==`, modelled by value equality). -/
def errorsIs : GoError → GoError → Bool
  | .base t i m, target => decide (GoError.base t i m = target)
  | .wrap t i m inner, target =>
      decide (GoError.wrap t i m inner = target) || errorsIs inner target

/-- `errors.As(e, &target)` with target type `E`: the first element of the
wrap chain assignable to `E`, if any. -/
def errorsAs (t : ETy) : GoError → Option GoError
  | .base a b c =>
      if matchesTy t (.base a b c) then some (.base a b c) else none
  | .wrap a b c inner =>
      if matchesTy t (.wrap a b c inner) then some (.wrap a b c inner)
      else errorsAs t inner

/-- `errors.As` on a possibly-nil error: `errors.As(nil, _)` is false. -/
def errorsAsOpt (t : ETy) : Option GoError → Option GoError
  | none => none
  | some e => errorsAs t e

/-- `errors.Is` on a possibly-nil error against a non-nil target. -/
def errorsIsOpt : Option GoError → GoError → Bool
  | none, _ => false
  | some e, target => errorsIs e target

/-- Does some element of the wrap chain satisfy `p`? -/
def chainHolds (p : GoError → Bool) : GoError → Bool
  | .base a b c => p (.base a b c)
  | .wrap a b c inner => p (.wrap a b c inner) || chainHolds p inner

/-- Wrap an error in a sequence of wrapping layers (outermost first); each
layer supplies the wrapper's dynamic type name, identity and message, as
`fmt.Errorf("...: %w", e)` would. -/
def wrapChain : List (String × Nat × String) → GoError → GoError
  | [], e => e
  | (t, i, m) :: rest, e => GoError.wrap t i m (wrapChain rest e)

/-- Pointwise update of a string-keyed Go map: `m[k] = v`. -/
def setKey {α : Type} (f : String → Option α) (k : String) (v : α) :
    String → Option α :=
  fun q => if q = k then some v else f q

/-- `const defaultCode = http.StatusInternalServerError` (all generations). -/
def defaultCode : Int := 500

namespace V1

/-- An entry of the v1 `handlers` map (`src/errors.go`).  `typed` is the
closure stored by `RegisterErrorHandlerOn` (it performs the `err.(E)` type
assertion for the type named `ety`), `custom` the closure stored by
`RegisterCustomErrorTypeHandlerOn`, and `bridge` the built-in
`"*errors.errorString"` entry installed by `NewErrorRegistry`, which reads
the registry's current `stringHandlers` and defaults when invoked. -/
inductive Entry where
  | typed (ety : String) (h : GoError → Int × GoValue)
  | custom (h : Option GoError → Int × GoValue)
  | bridge

/-- The v1 `ErrorRegistry` (`src/errors.go` lines 55-67). -/
structure ErrorRegistry where
  handlers : String → Option Entry
  stringHandlers : String → Option (String → Int × GoValue)
  DefaultCode : Int
  DefaultResponse : GoValue

/-- `NewErrorRegistry` (`src/errors.go` lines 34-52): empty maps, default
code 500, nil default response, and the `"*errors.errorString"` bridge. -/
def NewErrorRegistry : ErrorRegistry where
  handlers := fun k => if k = "*errors.errorString" then some .bridge else none
  stringHandlers := fun _ => none
  DefaultCode := defaultCode
  DefaultResponse := .nil

/-- `SetDefaultResponse` (`src/errors.go` lines 70-73). -/
def SetDefaultResponse (e : ErrorRegistry) (code : Int) (response : GoValue) :
    ErrorRegistry :=
  { e with DefaultCode := code, DefaultResponse := response }

/-- `NewErrorResponseFrom` (`src/errors.go` lines 91-102): look up the
error's `%T` name in `handlers`; call the entry if present, else return the
defaults.  `none` models a panic of the invoked entry. -/
def NewErrorResponseFrom (registry : ErrorRegistry) (err : Option GoError) :
    Option (Int × GoValue) :=
  match registry.handlers (typeOfOpt err) with
  | some (.typed ety h) =>
      match err with
      | some e => if e.ty = ety then some (h e) else none
      | none => none
  | some (.custom h) => some (h err)
  | some .bridge =>
      match err with
      | some e =>
          some (match registry.stringHandlers e.msg with
                | some sh => sh e.msg
                | none => (registry.DefaultCode, registry.DefaultResponse))
      | none => none
  | none => some (registry.DefaultCode, registry.DefaultResponse)

/-- `RegisterErrorHandlerOn` (`src/errors.go` lines 112-123): store, under
the key `fmt.Sprintf("%T", *new(E))` (the `%T` name `ety` of `E`), a closure
asserting `err.(E)`. -/
def RegisterErrorHandlerOn (registry : ErrorRegistry) (ety : String)
    (handler : GoError → Int × GoValue) : ErrorRegistry :=
  { registry with handlers := setKey registry.handlers ety (.typed ety handler) }

/-- `RegisterCustomErrorTypeHandlerOn` (`src/errors.go` lines 137-142):
store the caller's closure under the caller-chosen key. -/
def RegisterCustomErrorTypeHandlerOn (registry : ErrorRegistry)
    (errorType : String) (handler : Option GoError → Int × GoValue) :
    ErrorRegistry :=
  { registry with handlers := setKey registry.handlers errorType (.custom handler) }

/-- `RegisterStringErrorHandlerOn` (`src/errors.go` lines 156-160). -/
def RegisterStringErrorHandlerOn (registry : ErrorRegistry)
    (errorString : String) (handler : String → Int × GoValue) : ErrorRegistry :=
  { registry with
      stringHandlers := setKey registry.stringHandlers errorString handler }

end V1

namespace V0

/-- Entry of the `src/unnamed/part_001` `handlers` map; same shapes as v1. -/
inductive Entry where
  | typed (ety : String) (h : GoError → Int × GoValue)
  | custom (h : Option GoError → Int × GoValue)
  | bridge

/-- The `src/unnamed/part_001` `ErrorRegistry`. -/
structure ErrorRegistry where
  handlers : String → Option Entry
  stringHandlers : String → Option (String → Int × GoValue)
  DefaultCode : Int
  DefaultResponse : GoValue

/-- `NewErrorRegistry` (`src/unnamed/part_001` lines 28-34): empty maps and
default code 500; unlike v1 it installs no bridge entry. -/
def NewErrorRegistry : ErrorRegistry where
  handlers := fun _ => none
  stringHandlers := fun _ => none
  DefaultCode := defaultCode
  DefaultResponse := .nil

/-- `fmt.Sprintf("%R", *new(E))` for a pointer error type `E` named `ety`:
`%R` is not a `fmt` verb, so Go renders `"%!R(<type>=<value>)"`, here with
the zero value `<nil>` of the pointer type. -/
def badVerbKey (ety : String) : String := "%!R(" ++ ety ++ "=<nil>)"

/-- `NewErrorResponseFrom` (`src/unnamed/part_001` lines 63-76): identical
to the v1 dispatch — look up `fmt.Sprintf("%T", err)` in `handlers`. -/
def NewErrorResponseFrom (registry : ErrorRegistry) (err : Option GoError) :
    Option (Int × GoValue) :=
  match registry.handlers (typeOfOpt err) with
  | some (.typed ety h) =>
      match err with
      | some e => if e.ty = ety then some (h e) else none
      | none => none
  | some (.custom h) => some (h err)
  | some .bridge =>
      match err with
      | some e =>
          some (match registry.stringHandlers e.msg with
                | some sh => sh e.msg
                | none => (registry.DefaultCode, registry.DefaultResponse))
      | none => none
  | none => some (registry.DefaultCode, registry.DefaultResponse)

/-- `RegisterErrorHandlerOn` (`src/unnamed/part_001` lines 83-93): stores
the `err.(E)` closure under `errorType := fmt.Sprintf("%R", *new(E))` —
note the verb, while dispatch looks up `fmt.Sprintf("%T", err)`. -/
def RegisterErrorHandlerOn (registry : ErrorRegistry) (ety : String)
    (handler : GoError → Int × GoValue) : ErrorRegistry :=
  { registry with
      handlers := setKey registry.handlers (badVerbKey ety) (.typed ety handler) }

end V0

namespace V2

/-- Entry of the v2 `handlers` map (`src/v2/errors.go`, first snapshot);
same shapes as v1, with the context threaded through. -/
inductive Entry where
  | typed (ety : String) (h : Ctx → GoError → Int × GoValue)
  | custom (h : Ctx → Option GoError → Int × GoValue)
  | bridge

/-- The v2 `ErrorRegistry` (`src/v2/errors.go` lines 59-72). -/
structure ErrorRegistry where
  handlers : String → Option Entry
  stringHandlers : String → Option (Ctx → String → Int × GoValue)
  DefaultCode : Int
  DefaultResponse : GoValue

/-- `NewErrorRegistry` (`src/v2/errors.go` lines 39-57): empty maps, default
code 500, and the built-in `"*errors.errorString"` bridge entry. -/
def NewErrorRegistry : ErrorRegistry where
  handlers := fun k => if k = "*errors.errorString" then some .bridge else none
  stringHandlers := fun _ => none
  DefaultCode := defaultCode
  DefaultResponse := .nil

/-- `SetDefaultResponse` (`src/v2/errors.go` lines 74-77). -/
def SetDefaultResponse (e : ErrorRegistry) (code : Int) (response : GoValue) :
    ErrorRegistry :=
  { e with DefaultCode := code, DefaultResponse := response }

/-- `NewContextErrorResponseFrom` (`src/v2/errors.go` lines 99-110): look up
`fmt.Sprintf("%T", err)` in `handlers`; call the entry if present, else
return the defaults.  `none` models a panic of the invoked entry (the
`err.(E)` assertion of a `typed` entry failing). -/
def NewContextErrorResponseFrom (registry : ErrorRegistry) (ctx : Ctx)
    (err : Option GoError) : Option (Int × GoValue) :=
  match registry.handlers (typeOfOpt err) with
  | some (.typed ety h) =>
      match err with
      | some e => if e.ty = ety then some (h ctx e) else none
      | none => none
  | some (.custom h) => some (h ctx err)
  | some .bridge =>
      match err with
      | some e =>
          some (match registry.stringHandlers e.msg with
                | some sh => sh ctx e.msg
                | none => (registry.DefaultCode, registry.DefaultResponse))
      | none => none
  | none => some (registry.DefaultCode, registry.DefaultResponse)

/-- `NewErrorResponseFrom` (`src/v2/errors.go` lines 93-95): dispatch with
`context.Background()`. -/
def NewErrorResponseFrom (registry : ErrorRegistry) (err : Option GoError) :
    Option (Int × GoValue) :=
  NewContextErrorResponseFrom registry ctxBackground err

/-- `RegisterErrorHandlerOn` (`src/v2/errors.go` lines 118-138): store, under
the key `fmt.Sprintf("%T", err)` (the dynamic type name `ety` of the instance
of `E`), a closure asserting `err.(E)`.  The handler union type admits a
context-free variant; it is the special case of a handler constant in `ctx`. -/
def RegisterErrorHandlerOn (registry : ErrorRegistry) (ety : String)
    (handler : Ctx → GoError → Int × GoValue) : ErrorRegistry :=
  { registry with handlers := setKey registry.handlers ety (.typed ety handler) }

/-- `RegisterCustomErrorTypeHandlerOn` (`src/v2/errors.go` lines 150-166). -/
def RegisterCustomErrorTypeHandlerOn (registry : ErrorRegistry)
    (errorType : String) (handler : Ctx → Option GoError → Int × GoValue) :
    ErrorRegistry :=
  { registry with handlers := setKey registry.handlers errorType (.custom handler) }

/-- `RegisterStringErrorHandlerOn` (`src/v2/errors.go` lines 178-193). -/
def RegisterStringErrorHandlerOn (registry : ErrorRegistry)
    (errorString : String) (handler : Ctx → String → Int × GoValue) :
    ErrorRegistry :=
  { registry with
      stringHandlers := setKey registry.stringHandlers errorString handler }

end V2

namespace V2d

/-- Entry of the `handlers` map of the second `src/v2/errors.go` snapshot;
same shapes as v2 (`RegisterCustomErrorTypeHandlerOn` there stores the
caller's `func(ctx, err)` directly, which has the `custom` shape). -/
inductive Entry where
  | typed (ety : String) (h : Ctx → GoError → Int × GoValue)
  | custom (h : Ctx → Option GoError → Int × GoValue)
  | bridge

/-- The `ErrorRegistry` of the second `src/v2/errors.go` snapshot (lines
229-244): it adds `DefaultHandler`, which takes precedence over
`DefaultCode`/`DefaultResponse`. -/
structure ErrorRegistry where
  handlers : String → Option Entry
  stringHandlers : String → Option (Ctx → String → Int × GoValue)
  DefaultHandler : Option (Ctx → Option GoError → Int × GoValue)
  DefaultCode : Int
  DefaultResponse : GoValue

/-- `NewErrorRegistry` (`src/v2/errors.go` lines 209-227). -/
def NewErrorRegistry : ErrorRegistry where
  handlers := fun k => if k = "*errors.errorString" then some .bridge else none
  stringHandlers := fun _ => none
  DefaultHandler := none
  DefaultCode := defaultCode
  DefaultResponse := .nil

/-- `SetDefaultResponse` (`src/v2/errors.go` lines 247-250). -/
def SetDefaultResponse (e : ErrorRegistry) (code : Int) (response : GoValue) :
    ErrorRegistry :=
  { e with DefaultCode := code, DefaultResponse := response }

/-- `RegisterDefaultHandler` (`src/v2/errors.go` lines 252-254). -/
def RegisterDefaultHandler (e : ErrorRegistry)
    (callback : Ctx → Option GoError → Int × GoValue) : ErrorRegistry :=
  { e with DefaultHandler := some callback }

/-- `defaultResponse` (`src/v2/errors.go` lines 256-264): the default
handler's result if one is set, else the static default pair. -/
def defaultResponse (e : ErrorRegistry) (ctx : Ctx) (err : Option GoError) :
    Int × GoValue :=
  match e.DefaultHandler with
  | some h => h ctx err
  | none => (e.DefaultCode, e.DefaultResponse)

/-- `NewErrorResponseFrom` (`src/v2/errors.go` lines 274-283): look up
`fmt.Sprintf("%T", err)` in `handlers`; call the entry if present, else
`defaultResponse`.  The bridge entry (lines 217-224) also falls back to
`defaultResponse` when the message has no string handler. -/
def NewErrorResponseFrom (registry : ErrorRegistry) (ctx : Ctx)
    (err : Option GoError) : Option (Int × GoValue) :=
  match registry.handlers (typeOfOpt err) with
  | some (.typed ety h) =>
      match err with
      | some e => if e.ty = ety then some (h ctx e) else none
      | none => none
  | some (.custom h) => some (h ctx err)
  | some .bridge =>
      match err with
      | some e =>
          some (match registry.stringHandlers e.msg with
                | some sh => sh ctx e.msg
                | none => defaultResponse registry ctx err)
      | none => none
  | none => some (defaultResponse registry ctx err)

end V2d

namespace V3

/-- `errorHandler` (`src/unnamed/part_000` lines 13-26): the stored
validation/response record.  `isType` wraps `errors.As` with the registered
type information, `handle` wraps the user handler behind an `errors.As`
extraction (a failed extraction leaves the zero value of `E`, modelled by
passing `none`), and `isStringError` records whether the registered instance
was a `*errors.errorString`. -/
structure errorHandler where
  isStringError : Bool
  isType : Option GoError → Bool
  handle : Ctx → Option GoError → Int × GoValue

/-- The `ErrorRegistry` of `src/unnamed/part_000` (lines 41-48): a map from
error instances to handlers, plus a default handler.  The Go `map[error]`
is modelled as an association list with unique keys; its iteration order in
dispatch is whatever order the list carries. -/
structure ErrorRegistry where
  handlers : List (GoError × errorHandler)
  defaultHandler : Ctx → Option GoError → Int × GoValue

/-- `NewErrorRegistry` (`src/unnamed/part_000` lines 30-39): no handlers and
a default handler returning `(http.StatusInternalServerError, nil)`. -/
def NewErrorRegistry : ErrorRegistry where
  handlers := []
  defaultHandler := fun _ _ => (defaultCode, .nil)

/-- `RegisterDefaultHandler` (`src/unnamed/part_000` lines 50-52). -/
def RegisterDefaultHandler (e : ErrorRegistry)
    (callback : Ctx → Option GoError → Int × GoValue) : ErrorRegistry :=
  { e with defaultHandler := callback }

/-- Go map assignment `m[k] = v` on the association-list model: replace the
entry with key `k` if present, otherwise add one. -/
def putAssoc (l : List (GoError × errorHandler)) (k : GoError)
    (v : errorHandler) : List (GoError × errorHandler) :=
  if l.any (fun p => decide (p.1 = k)) then
    l.map (fun p => if p.1 = k then (k, v) else p)
  else l ++ [(k, v)]

/-- The `errorHandler` record built by `RegisterErrorHandlerOn`
(`src/unnamed/part_000` lines 97-119) for type parameter `E` (modelled by
`ety`) and registered instance `inst`. -/
def mkHandler (ety : ETy) (inst : GoError)
    (handler : Ctx → Option GoError → Int × GoValue) : errorHandler where
  isStringError := decide (inst.ty = "*errors.errorString")
  isType := fun err => (errorsAsOpt ety err).isSome
  handle := fun ctx err => handler ctx (errorsAsOpt ety err)

/-- `RegisterErrorHandlerOn` (`src/unnamed/part_000` lines 97-119):
`registry.handlers[instance] = &errorHandler{...}`. -/
def RegisterErrorHandlerOn (registry : ErrorRegistry) (ety : ETy)
    (inst : GoError) (handler : Ctx → Option GoError → Int × GoValue) :
    ErrorRegistry :=
  { registry with
      handlers := putAssoc registry.handlers inst (mkHandler ety inst handler) }

/-- The loop body of `NewErrorResponseFrom` (`src/unnamed/part_000` lines
62-84), recursing over the entries in iteration order. -/
def scan (ctx : Ctx) (err : Option GoError)
    (d : Ctx → Option GoError → Int × GoValue) :
    List (GoError × errorHandler) → Int × GoValue
  | [] => d ctx err
  | (errConcrete, handler) :: rest =>
    if handler.isType err then
      if handler.isStringError then
        if errorsIsOpt err errConcrete then handler.handle ctx (some errConcrete)
        else scan ctx err d rest
      else handler.handle ctx err
    else scan ctx err d rest

/-- `NewErrorResponseFrom` (`src/unnamed/part_000` lines 62-84): iterate over
the registered entries; skip entries whose `isType` fails; for string-error
entries additionally require `errors.Is` and pass the registered concrete
instance to the handler; fall back to `defaultHandler` when nothing matched. -/
def NewErrorResponseFrom (ctx : Ctx) (registry : ErrorRegistry)
    (err : Option GoError) : Int × GoValue :=
  scan ctx err registry.defaultHandler registry.handlers

/-- Does the dispatch loop select this entry for this error?  This is the
exact condition under which `scan` stops at an entry. -/
def entryMatches (err : Option GoError) (p : GoError × errorHandler) : Bool :=
  p.2.isType err && (!p.2.isStringError || errorsIsOpt err p.1)

end V3

namespace V2t

/-- Refinement of the v2 error model for the panic analysis of dispatch:
a Go error value here carries both its type identity and its printed type
name.  `pkg` is the defining package's full import path (part of Go type
identity), while `ty` is `fmt.Sprintf("%T", e)`, which keeps only the last
component of the package path — so two distinct types from different
packages (e.g. `a/models.Err` and `b/models.Err`) share the same printed
name `"*models.Err"`.  The v2 dispatcher never unwraps, so no wrap chain is
carried. -/
structure GoTyError where
  pkg : String
  ty : String
  id : Nat
  msg : String
deriving DecidableEq

/-- `fmt.Sprintf("%T", err)` on a possibly-nil error: the printed name. -/
def typeOfOptT : Option GoTyError → String
  | none => "<nil>"
  | some e => e.ty

/-- Entry of the v2 `handlers` map in the refined model: a `typed` entry
remembers the full identity (`pkg`, `ety`) of the registered type `E`,
which its stored `err.(E)` assertion checks at call time. -/
inductive Entry where
  | typed (pkg : String) (ety : String) (h : Ctx → GoTyError → Int × GoValue)
  | custom (h : Ctx → Option GoTyError → Int × GoValue)
  | bridge

/-- The v2 `ErrorRegistry` (`src/v2/errors.go` lines 59-72), refined. -/
structure ErrorRegistry where
  handlers : String → Option Entry
  stringHandlers : String → Option (Ctx → String → Int × GoValue)
  DefaultCode : Int
  DefaultResponse : GoValue

/-- `NewErrorRegistry` (`src/v2/errors.go` lines 39-57), refined. -/
def NewErrorRegistry : ErrorRegistry where
  handlers := fun k => if k = "*errors.errorString" then some .bridge else none
  stringHandlers := fun _ => none
  DefaultCode := defaultCode
  DefaultResponse := .nil

/-- `SetDefaultResponse` (`src/v2/errors.go` lines 74-77). -/
def SetDefaultResponse (e : ErrorRegistry) (code : Int) (response : GoValue) :
    ErrorRegistry :=
  { e with DefaultCode := code, DefaultResponse := response }

/-- `NewContextErrorResponseFrom` (`src/v2/errors.go` lines 99-110) in the
refined model: the map lookup uses only the printed `%T` name, but the
invoked typed entry's `err.(E)` assertion succeeds only on Go type identity
— package path and printed name both equal — and otherwise panics (`none`). -/
def NewContextErrorResponseFrom (registry : ErrorRegistry) (ctx : Ctx)
    (err : Option GoTyError) : Option (Int × GoValue) :=
  match registry.handlers (typeOfOptT err) with
  | some (.typed pkg ety h) =>
      match err with
      | some e => if e.pkg = pkg ∧ e.ty = ety then some (h ctx e) else none
      | none => none
  | some (.custom h) => some (h ctx err)
  | some .bridge =>
      match err with
      | some e =>
          some (match registry.stringHandlers e.msg with
                | some sh => sh ctx e.msg
                | none => (registry.DefaultCode, registry.DefaultResponse))
      | none => none
  | none => some (registry.DefaultCode, registry.DefaultResponse)

/-- `RegisterErrorHandlerOn` (`src/v2/errors.go` lines 118-138) in the
refined model: the map key is the printed name of the instance of `E`; the
stored closure's assertion checks the full identity of `E`. -/
def RegisterErrorHandlerOn (registry : ErrorRegistry) (pkg ety : String)
    (handler : Ctx → GoTyError → Int × GoValue) : ErrorRegistry :=
  { registry with
      handlers := setKey registry.handlers ety (.typed pkg ety handler) }

/-- `RegisterCustomErrorTypeHandlerOn` (`src/v2/errors.go` lines 150-166). -/
def RegisterCustomErrorTypeHandlerOn (registry : ErrorRegistry)
    (errorType : String) (handler : Ctx → Option GoTyError → Int × GoValue) :
    ErrorRegistry :=
  { registry with
      handlers := setKey registry.handlers errorType (.custom handler) }

/-- `RegisterStringErrorHandlerOn` (`src/v2/errors.go` lines 178-193). -/
def RegisterStringErrorHandlerOn (registry : ErrorRegistry)
    (errorString : String) (handler : Ctx → String → Int × GoValue) :
    ErrorRegistry :=
  { registry with
      stringHandlers := setKey registry.stringHandlers errorString handler }

/-- A registration-time operation on a refined v2 registry, used to
characterise the registries reachable through the public API. -/
inductive RegOp where
  | typed (pkg : String) (ety : String) (h : Ctx → GoTyError → Int × GoValue)
  | custom (key : String) (h : Ctx → Option GoTyError → Int × GoValue)
  | strKey (s : String) (h : Ctx → String → Int × GoValue)
  | setDefault (code : Int) (response : GoValue)

/-- Apply one registration operation. -/
def applyOp (registry : ErrorRegistry) : RegOp → ErrorRegistry
  | .typed pkg ety h => RegisterErrorHandlerOn registry pkg ety h
  | .custom key h => RegisterCustomErrorTypeHandlerOn registry key h
  | .strKey s h => RegisterStringErrorHandlerOn registry s h
  | .setDefault c r => SetDefaultResponse registry c r

/-- A registry built by a start-up sequence of registrations. -/
def buildRegistry (ops : List RegOp) : ErrorRegistry :=
  ops.foldl applyOp NewErrorRegistry

/-- A typed registration registers an actual error instance, whose printed
type name is never `"<nil>"` (the name of the nil interface value). -/
def goodOp : RegOp → Prop
  | .typed _ ety _ => ety ≠ "<nil>"
  | _ => True

/-- Well-formedness of a refined v2 registry relative to the operations that
built it: typed entries sit under their own printed name (never under
`"<nil>"`) and stem from a typed registration in `ops`, and a bridge entry
only ever sits under `"*errors.errorString"`. -/
def Inv (ops : List RegOp) (registry : ErrorRegistry) : Prop :=
  ∀ k, (∀ pkg ety h, registry.handlers k = some (.typed pkg ety h) →
          ety = k ∧ k ≠ "<nil>" ∧ ∃ h2, RegOp.typed pkg ety h2 ∈ ops) ∧
       (registry.handlers k = some .bridge → k = "*errors.errorString")

end V2t


/-! Helper lemmas about the error model and the V3 scanning dispatcher. -/

theorem errorsAs_iface (e : GoError) : errorsAs ETy.iface e = some e := by
  cases e <;> simp [errorsAs, matchesTy]

theorem errorsAs_conc_isSome (T : String) (e : GoError) :
    (errorsAs (ETy.conc T) e).isSome
      = chainHolds (fun x => decide (x.ty = T)) e := by
  induction e with
  | base a b c =>
      by_cases h : a = T <;>
        simp [errorsAs, chainHolds, matchesTy, GoError.ty, h]
  | wrap a b c inner ih =>
      by_cases h : a = T <;>
        simp [errorsAs, chainHolds, matchesTy, GoError.ty, h, ih]

theorem errorsIs_wrapChain (l : List (String × Nat × String)) (t : String)
    (i : Nat) (m : String) :
    errorsIs (wrapChain l (GoError.base t i m)) (GoError.base t i m) = true := by
  induction l with
  | nil => simp [wrapChain, errorsIs]
  | cons hd tl ih =>
      obtain ⟨a, b, c⟩ := hd
      simp [wrapChain, errorsIs, ih]

theorem scan_eq_find (ctx : Ctx) (err : Option GoError)
    (d : Ctx → Option GoError → Int × GoValue)
    (l : List (GoError × V3.errorHandler)) :
    V3.scan ctx err d l =
      match l.find? (V3.entryMatches err) with
      | some p => if p.2.isStringError then p.2.handle ctx (some p.1)
                  else p.2.handle ctx err
      | none => d ctx err := by
  induction l with
  | nil => simp [V3.scan]
  | cons hd rest ih =>
      obtain ⟨k, h⟩ := hd
      cases hT : h.isType err with
      | false =>
          have hm : V3.entryMatches err (k, h) = false := by
            simp [V3.entryMatches, hT]
          rw [V3.scan, if_neg (by simp [hT]), ih,
            List.find?_cons_of_neg _ (by simp [hm])]
      | true =>
          cases hS : h.isStringError with
          | false =>
              have hm : V3.entryMatches err (k, h) = true := by
                simp [V3.entryMatches, hT, hS]
              rw [V3.scan, if_pos hT, if_neg (by simp [hS]),
                List.find?_cons_of_pos _ hm]
              simp [hS]
          | true =>
              cases hI : errorsIsOpt err k with
              | false =>
                  have hm : V3.entryMatches err (k, h) = false := by
                    simp [V3.entryMatches, hT, hS, hI]
                  rw [V3.scan, if_pos hT, if_pos hS, if_neg (by simp [hI]), ih,
                    List.find?_cons_of_neg _ (by simp [hm])]
              | true =>
                  have hm : V3.entryMatches err (k, h) = true := by
                    simp [V3.entryMatches, hT, hS, hI]
                  rw [V3.scan, if_pos hT, if_pos hS, if_pos hI,
                    List.find?_cons_of_pos _ hm]
                  simp [hS]

theorem find?_unique {α : Type} (p : α → Bool) (a : α) (l : List α)
    (hmem : a ∈ l) (hpa : p a = true)
    (huniq : ∀ x ∈ l, p x = true → x = a) : l.find? p = some a := by
  induction l with
  | nil => cases hmem
  | cons b t ih =>
      by_cases hb : p b = true
      · have hba : b = a := huniq b (List.mem_cons_self b t) hb
        rw [List.find?_cons_of_pos _ hb, hba]
      · rw [List.find?_cons_of_neg _ (by simpa using hb)]
        have hat : a ∈ t := by
          rcases List.mem_cons.mp hmem with h | h
          · exact absurd (h ▸ hpa) hb
          · exact h
        exact ih hat (fun x hx hpx => huniq x (List.mem_cons_of_mem _ hx) hpx)

/-- Claim C1: in the v2 generation a handler registered for type `E` is
invoked verbatim for errors of dynamic type `E`; but in the
`src/unnamed/part_001` generation, `RegisterErrorHandlerOn` stores the
handler under the `fmt.Sprintf("%R", ...)` key while dispatch looks up the
`fmt.Sprintf("%T", ...)` key, so the registered handler is never found and
the defaults are returned instead of the handler's result.  Here a handler
for `*main.ErrorA` returning `(400, "bad")` is registered and an error of
exactly that dynamic type is dispatched: the result is the default
`(500, nil)`, the lookup key holds no entry, and the handler sits under the
mangled key. -/
theorem claimC1_v0_registered_handler_never_found :
    V0.NewErrorResponseFrom
        (V0.RegisterErrorHandlerOn V0.NewErrorRegistry "*main.ErrorA"
          (fun _ => (400, GoValue.str "bad")))
        (some (GoError.base "*main.ErrorA" 1 "a"))
      = some (500, GoValue.nil)
    ∧ (V0.RegisterErrorHandlerOn V0.NewErrorRegistry "*main.ErrorA"
          (fun _ => (400, GoValue.str "bad"))).handlers "*main.ErrorA" = none
    ∧ (V0.RegisterErrorHandlerOn V0.NewErrorRegistry "*main.ErrorA"
          (fun _ => (400, GoValue.str "bad"))).handlers
          (V0.badVerbKey "*main.ErrorA")
        = some (V0.Entry.typed "*main.ErrorA"
            (fun _ => (400, GoValue.str "bad"))) := by
  refine ⟨?_, ?_, ?_⟩ <;> rfl

/-- Claim C2: registering a sentinel string error (an `errors.New` value, of
dynamic type `*errors.errorString`) in the `src/unnamed/part_000` registry
and dispatching it under any finite number of wrapping layers invokes the
registered handler with the sentinel itself (not the wrapped error) and
returns the handler's result. -/
theorem claimC2_wrapped_sentinel_handler_gets_sentinel (i : Nat) (m : String)
    (handler : Ctx → Option GoError → Int × GoValue)
    (l : List (String × Nat × String)) (ctx : Ctx) :
    V3.NewErrorResponseFrom ctx
        (V3.RegisterErrorHandlerOn V3.NewErrorRegistry ETy.iface
          (GoError.base "*errors.errorString" i m) handler)
        (some (wrapChain l (GoError.base "*errors.errorString" i m)))
      = handler ctx (some (GoError.base "*errors.errorString" i m)) := by
  simp [V3.NewErrorResponseFrom, V3.RegisterErrorHandlerOn, V3.putAssoc,
    V3.NewErrorRegistry, V3.mkHandler, V3.scan, errorsAsOpt, errorsAs_iface,
    errorsIsOpt, errorsIs_wrapChain, GoError.ty]

/-- Claim C9: a freshly created registry with no registrations and no default
set returns `(500, nil)` — status `http.StatusInternalServerError` with an
absent payload — for every dispatched error, in both the v1
(`src/errors.go`) and the `src/unnamed/part_000` generations. -/
theorem claimC9_fresh_registry_returns_500_nil :
    (∀ err : Option GoError,
        V1.NewErrorResponseFrom V1.NewErrorRegistry err
          = some (500, GoValue.nil))
    ∧ (∀ (ctx : Ctx) (err : Option GoError),
        V3.NewErrorResponseFrom ctx V3.NewErrorRegistry err
          = (500, GoValue.nil)) := by
  constructor
  · intro err
    cases err with
    | none => rfl
    | some e =>
        by_cases h : e.ty = "*errors.errorString" <;>
          simp [V1.NewErrorResponseFrom, V1.NewErrorRegistry, typeOfOpt, h,
            defaultCode]
  · intro ctx err
    rfl

/-- Claim C7: registering two handlers for the same identity in order raises
no error and the second registration wins: the resulting v2 registry has the
same handler map as a single registration of the second handler, and every
dispatch of an error of that type returns the second handler's result. -/
theorem claimC7_reregistration_last_write_wins
    (reg : V2.ErrorRegistry) (ety : String)
    (h1 h2 : Ctx → GoError → Int × GoValue) (ctx : Ctx) (e : GoError)
    (hty : e.ty = ety) :
    (V2.RegisterErrorHandlerOn (V2.RegisterErrorHandlerOn reg ety h1)
        ety h2).handlers
      = (V2.RegisterErrorHandlerOn reg ety h2).handlers
    ∧ V2.NewContextErrorResponseFrom
        (V2.RegisterErrorHandlerOn (V2.RegisterErrorHandlerOn reg ety h1)
          ety h2)
        ctx (some e)
      = some (h2 ctx e) := by
  constructor
  · funext q
    by_cases hq : q = ety <;> simp [V2.RegisterErrorHandlerOn, setKey, hq]
  · simp [V2.NewContextErrorResponseFrom, V2.RegisterErrorHandlerOn, setKey,
      typeOfOpt, hty]

/-- Witness for claim C7 at a concrete registry, type and error. -/
theorem claimC7_witness :
    (V2.RegisterErrorHandlerOn
        (V2.RegisterErrorHandlerOn V2.NewErrorRegistry "*pkg.A"
          (fun _ _ => (401, GoValue.str "one")))
        "*pkg.A" (fun _ _ => (402, GoValue.str "two"))).handlers
      = (V2.RegisterErrorHandlerOn V2.NewErrorRegistry "*pkg.A"
          (fun _ _ => (402, GoValue.str "two"))).handlers
    ∧ V2.NewContextErrorResponseFrom
        (V2.RegisterErrorHandlerOn
          (V2.RegisterErrorHandlerOn V2.NewErrorRegistry "*pkg.A"
            (fun _ _ => (401, GoValue.str "one")))
          "*pkg.A" (fun _ _ => (402, GoValue.str "two")))
        0 (some (GoError.base "*pkg.A" 1 "a"))
      = some (402, GoValue.str "two") :=
  claimC7_reregistration_last_write_wins V2.NewErrorRegistry "*pkg.A"
    (fun _ _ => (401, GoValue.str "one")) (fun _ _ => (402, GoValue.str "two"))
    0 (GoError.base "*pkg.A" 1 "a") rfl

/-- Claim C4: when no handler matches, dispatch in the `DefaultHandler`-aware
v2 snapshot returns the fallback `defaultResponse`: the default handler's
result when one is set (the static `DefaultCode`/`DefaultResponse` pair being
ignored), else the static pair. -/
theorem claimC4_unmatched_fallback_handler_precedence
    (reg : V2d.ErrorRegistry) (ctx : Ctx) (err : Option GoError)
    (hmiss : reg.handlers (typeOfOpt err) = none) :
    V2d.NewErrorResponseFrom reg ctx err
      = some (V2d.defaultResponse reg ctx err)
    ∧ ∀ h, reg.DefaultHandler = some h →
        V2d.NewErrorResponseFrom reg ctx err = some (h ctx err) := by
  constructor
  · simp [V2d.NewErrorResponseFrom, hmiss]
  · intro h hd
    simp [V2d.NewErrorResponseFrom, hmiss, V2d.defaultResponse, hd]

/-- Witness for claim C4: a registry with both a default handler and a static
default pair set returns the default handler's result on an unmatched error;
the static pair `(503, "unavailable")` is ignored. -/
theorem claimC4_witness :
    V2d.NewErrorResponseFrom
        (V2d.RegisterDefaultHandler
          (V2d.SetDefaultResponse V2d.NewErrorRegistry 503
            (GoValue.str "unavailable"))
          (fun _ _ => (502, GoValue.str "try later")))
        0 (some (GoError.base "*pkg.Z" 1 "z"))
      = some (502, GoValue.str "try later")
    ∧ ∀ h, (V2d.RegisterDefaultHandler
          (V2d.SetDefaultResponse V2d.NewErrorRegistry 503
            (GoValue.str "unavailable"))
          (fun _ _ => (502, GoValue.str "try later"))).DefaultHandler = some h →
        V2d.NewErrorResponseFrom
          (V2d.RegisterDefaultHandler
            (V2d.SetDefaultResponse V2d.NewErrorRegistry 503
              (GoValue.str "unavailable"))
            (fun _ _ => (502, GoValue.str "try later")))
          0 (some (GoError.base "*pkg.Z" 1 "z"))
        = some (h 0 (some (GoError.base "*pkg.Z" 1 "z"))) :=
  claimC4_unmatched_fallback_handler_precedence
    (V2d.RegisterDefaultHandler
      (V2d.SetDefaultResponse V2d.NewErrorRegistry 503
        (GoValue.str "unavailable"))
      (fun _ _ => (502, GoValue.str "try later")))
    0 (some (GoError.base "*pkg.Z" 1 "z")) rfl

/-- Claim C3 counterexample: in the v2 dispatcher
(`NewContextErrorResponseFrom`, cited by the claim) a handler registered for
type `*pkg.A` does not match an error whose wrap chain contains a `*pkg.A`
when the outermost dynamic type is `*fmt.wrapError`: the wrapped error falls
through to the default `(500, nil)`, while the unwrapped error is handled.
So the v2 match does not succeed for everything the error transitively
wraps. -/
theorem claimC3_counterexample_v2_wrapped_not_matched :
    V2.NewContextErrorResponseFrom
        (V2.RegisterErrorHandlerOn V2.NewErrorRegistry "*pkg.A"
          (fun _ _ => (400, GoValue.str "bad")))
        0 (some (GoError.wrap "*fmt.wrapError" 9 "wrapped: a"
            (GoError.base "*pkg.A" 1 "a")))
      = some (500, GoValue.nil)
    ∧ V2.NewContextErrorResponseFrom
        (V2.RegisterErrorHandlerOn V2.NewErrorRegistry "*pkg.A"
          (fun _ _ => (400, GoValue.str "bad")))
        0 (some (GoError.base "*pkg.A" 1 "a"))
      = some (400, GoValue.str "bad") :=
  ⟨rfl, rfl⟩

/-- Claim C3 (amended to the `src/unnamed/part_000` dispatcher): for a
handler registered there for a concrete error type `T`, dispatch selects the
handler exactly when the dispatched error or something it transitively wraps
has dynamic type `T` (the handler then receives the first such chain
element), and otherwise falls back to the default; the match test
`errors.As` holds precisely on wrap-chain containment. -/
theorem claimC3_amended_v3_match_iff_chain_contains
    (T : String) (inst : GoError)
    (handler : Ctx → Option GoError → Int × GoValue) (ctx : Ctx) (e : GoError)
    (hstr : inst.ty ≠ "*errors.errorString") :
    V3.NewErrorResponseFrom ctx
        (V3.RegisterErrorHandlerOn V3.NewErrorRegistry (ETy.conc T) inst
          handler)
        (some e)
      = (match errorsAs (ETy.conc T) e with
         | some matched => handler ctx (some matched)
         | none => (500, GoValue.nil))
    ∧ (errorsAs (ETy.conc T) e).isSome
        = chainHolds (fun x => decide (x.ty = T)) e := by
  refine ⟨?_, errorsAs_conc_isSome T e⟩
  cases hm : errorsAs (ETy.conc T) e with
  | none =>
      simp [V3.NewErrorResponseFrom, V3.RegisterErrorHandlerOn, V3.putAssoc,
        V3.NewErrorRegistry, V3.mkHandler, V3.scan, errorsAsOpt, hm,
        defaultCode]
  | some matched =>
      simp [V3.NewErrorResponseFrom, V3.RegisterErrorHandlerOn, V3.putAssoc,
        V3.NewErrorRegistry, V3.mkHandler, V3.scan, errorsAsOpt, hm, hstr]

/-- Witness for the amended claim C3: a handler for `*pkg.B` matches an
error of outer type `*pkg.A` wrapping a `*pkg.B`. -/
theorem claimC3_witness :
    V3.NewErrorResponseFrom 0
        (V3.RegisterErrorHandlerOn V3.NewErrorRegistry (ETy.conc "*pkg.B")
          (GoError.base "*pkg.B" 2 "b") (fun _ _ => (401, GoValue.str "b")))
        (some (GoError.wrap "*pkg.A" 1 "a" (GoError.base "*pkg.B" 2 "b")))
      = (401, GoValue.str "b")
    ∧ (errorsAs (ETy.conc "*pkg.B")
          (GoError.wrap "*pkg.A" 1 "a" (GoError.base "*pkg.B" 2 "b"))).isSome
        = chainHolds (fun x => decide (x.ty = "*pkg.B"))
            (GoError.wrap "*pkg.A" 1 "a" (GoError.base "*pkg.B" 2 "b")) :=
  claimC3_amended_v3_match_iff_chain_contains "*pkg.B"
    (GoError.base "*pkg.B" 2 "b") (fun _ _ => (401, GoValue.str "b")) 0
    (GoError.wrap "*pkg.A" 1 "a" (GoError.base "*pkg.B" 2 "b")) (by decide)

/-- Claim C6 counterexample: in the `src/unnamed/part_000` dispatcher the
match decision is not a direct lookup of the error's dynamic-type key: with
a single entry registered for `*pkg.B`, an error whose own dynamic type is
`*pkg.A` (no registered entry has that key) is nevertheless matched by
scanning the entries and running the per-entry `errors.As` check. -/
theorem claimC6_counterexample_v3_scan :
    V3.NewErrorResponseFrom 0
        (V3.RegisterErrorHandlerOn V3.NewErrorRegistry (ETy.conc "*pkg.B")
          (GoError.base "*pkg.B" 2 "b") (fun _ _ => (401, GoValue.str "b")))
        (some (GoError.wrap "*pkg.A" 1 "a" (GoError.base "*pkg.B" 2 "b")))
      = (401, GoValue.str "b")
    ∧ ∀ p ∈ (V3.RegisterErrorHandlerOn V3.NewErrorRegistry (ETy.conc "*pkg.B")
          (GoError.base "*pkg.B" 2 "b")
          (fun _ _ => (401, GoValue.str "b"))).handlers,
        p.1.ty ≠ (GoError.wrap "*pkg.A" 1 "a"
          (GoError.base "*pkg.B" 2 "b")).ty := by
  constructor
  · rfl
  · intro p hp
    simp only [V3.RegisterErrorHandlerOn, V3.putAssoc, V3.NewErrorRegistry,
      List.any_nil, Bool.false_eq_true, if_false, List.nil_append,
      List.mem_singleton] at hp
    subst hp
    decide

/-- Claim C6 (amended to the v1/v2 string-keyed dispatchers): there the
match is an exact direct lookup — the dispatch result depends only on the
handler-map entry at the error's own dynamic-type key (plus the string
handlers and defaults the chosen entry may read), never on entries under
other keys. -/
theorem claimC6_amended_v2_exact_key_locality
    (r1 r2 : V2.ErrorRegistry) (ctx : Ctx) (err : Option GoError)
    (hh : r1.handlers (typeOfOpt err) = r2.handlers (typeOfOpt err))
    (hs : r1.stringHandlers = r2.stringHandlers)
    (hc : r1.DefaultCode = r2.DefaultCode)
    (hr : r1.DefaultResponse = r2.DefaultResponse) :
    V2.NewContextErrorResponseFrom r1 ctx err
      = V2.NewContextErrorResponseFrom r2 ctx err := by
  unfold V2.NewContextErrorResponseFrom
  simp only [hh, hs, hc, hr]

/-- Witness for the amended claim C6: registering a handler under the key
`*pkg.B` does not change the dispatch result for an error of type
`*pkg.A`. -/
theorem claimC6_witness :
    V2.NewContextErrorResponseFrom V2.NewErrorRegistry 0
        (some (GoError.base "*pkg.A" 1 "a"))
      = V2.NewContextErrorResponseFrom
          (V2.RegisterErrorHandlerOn V2.NewErrorRegistry "*pkg.B"
            (fun _ _ => (401, GoValue.str "b")))
          0 (some (GoError.base "*pkg.A" 1 "a")) :=
  claimC6_amended_v2_exact_key_locality V2.NewErrorRegistry
    (V2.RegisterErrorHandlerOn V2.NewErrorRegistry "*pkg.B"
      (fun _ _ => (401, GoValue.str "b")))
    0 (some (GoError.base "*pkg.A" 1 "a")) rfl rfl rfl rfl

/-- Claim C5 counterexample: in the `src/unnamed/part_000` registry two
registered entries (for types `*pkg.A` and `*pkg.B`) both match one error (a
`*pkg.A` wrapping a `*pkg.B`), and dispatching over the same set of entries
in two different iteration orders — both valid orders for a Go map — returns
two different results, so resolve is not independent of iteration order. -/
theorem claimC5_counterexample_iteration_order :
    V3.NewErrorResponseFrom 0
        (V3.RegisterErrorHandlerOn
          (V3.RegisterErrorHandlerOn V3.NewErrorRegistry (ETy.conc "*pkg.A")
            (GoError.base "*pkg.A" 1 "a0") (fun _ _ => (400, GoValue.str "a")))
          (ETy.conc "*pkg.B") (GoError.base "*pkg.B" 2 "b0")
          (fun _ _ => (401, GoValue.str "b")))
        (some (GoError.wrap "*pkg.A" 1 "x" (GoError.base "*pkg.B" 2 "b0")))
      ≠ V3.NewErrorResponseFrom 0
        { V3.RegisterErrorHandlerOn
            (V3.RegisterErrorHandlerOn V3.NewErrorRegistry (ETy.conc "*pkg.A")
              (GoError.base "*pkg.A" 1 "a0")
              (fun _ _ => (400, GoValue.str "a")))
            (ETy.conc "*pkg.B") (GoError.base "*pkg.B" 2 "b0")
            (fun _ _ => (401, GoValue.str "b")) with
          handlers := (V3.RegisterErrorHandlerOn
            (V3.RegisterErrorHandlerOn V3.NewErrorRegistry (ETy.conc "*pkg.A")
              (GoError.base "*pkg.A" 1 "a0")
              (fun _ _ => (400, GoValue.str "a")))
            (ETy.conc "*pkg.B") (GoError.base "*pkg.B" 2 "b0")
            (fun _ _ => (401, GoValue.str "b"))).handlers.reverse }
        (some (GoError.wrap "*pkg.A" 1 "x" (GoError.base "*pkg.B" 2 "b0")))
    ∧ (V3.RegisterErrorHandlerOn
        (V3.RegisterErrorHandlerOn V3.NewErrorRegistry (ETy.conc "*pkg.A")
          (GoError.base "*pkg.A" 1 "a0") (fun _ _ => (400, GoValue.str "a")))
        (ETy.conc "*pkg.B") (GoError.base "*pkg.B" 2 "b0")
        (fun _ _ => (401, GoValue.str "b"))).handlers.Perm
      (V3.RegisterErrorHandlerOn
        (V3.RegisterErrorHandlerOn V3.NewErrorRegistry (ETy.conc "*pkg.A")
          (GoError.base "*pkg.A" 1 "a0") (fun _ _ => (400, GoValue.str "a")))
        (ETy.conc "*pkg.B") (GoError.base "*pkg.B" 2 "b0")
        (fun _ _ => (401, GoValue.str "b"))).handlers.reverse :=
  ⟨by decide, (List.reverse_perm _).symm⟩

/-- Claim C5 (amended): the dispatch of `src/unnamed/part_000` is independent
of the iteration order over the registered entries whenever the claim's
at-most-one-match invariant actually holds for the dispatched error; two
permutations of the same entries then give the same result. -/
theorem claimC5_amended_unique_match_order_independent
    (ctx : Ctx) (err : Option GoError)
    (d : Ctx → Option GoError → Int × GoValue)
    (l1 l2 : List (GoError × V3.errorHandler))
    (hperm : l1.Perm l2)
    (huniq : ∀ p ∈ l1, ∀ q ∈ l1, V3.entryMatches err p = true →
        V3.entryMatches err q = true → p = q) :
    V3.scan ctx err d l1 = V3.scan ctx err d l2 := by
  rw [scan_eq_find, scan_eq_find]
  cases hf : l1.find? (V3.entryMatches err) with
  | none =>
      have hall : ∀ x ∈ l1, ¬ V3.entryMatches err x = true :=
        List.find?_eq_none.mp hf
      have h2 : l2.find? (V3.entryMatches err) = none := by
        rw [List.find?_eq_none]
        intro x hx
        exact hall x (hperm.mem_iff.mpr hx)
      rw [h2]
  | some a =>
      have hpa : V3.entryMatches err a = true := List.find?_some hf
      have hmem : a ∈ l1 := List.mem_of_find?_eq_some hf
      have h2 : l2.find? (V3.entryMatches err) = some a :=
        find?_unique _ a l2 (hperm.mem_iff.mp hmem) hpa
          (fun x hx hpx => huniq x (hperm.mem_iff.mpr hx) a hmem hpx hpa)
      rw [h2]

/-- Witness for the amended claim C5: with entries for `*pkg.A` and `*pkg.B`
and an error matched only by the `*pkg.A` entry, the two iteration orders
agree. -/
theorem claimC5_witness :
    V3.scan 0 (some (GoError.base "*pkg.A" 1 "a0"))
        (fun _ _ => (500, GoValue.nil))
        [(GoError.base "*pkg.A" 1 "a0",
            V3.mkHandler (ETy.conc "*pkg.A") (GoError.base "*pkg.A" 1 "a0")
              (fun _ _ => (400, GoValue.str "a"))),
         (GoError.base "*pkg.B" 2 "b0",
            V3.mkHandler (ETy.conc "*pkg.B") (GoError.base "*pkg.B" 2 "b0")
              (fun _ _ => (401, GoValue.str "b")))]
      = V3.scan 0 (some (GoError.base "*pkg.A" 1 "a0"))
        (fun _ _ => (500, GoValue.nil))
        [(GoError.base "*pkg.B" 2 "b0",
            V3.mkHandler (ETy.conc "*pkg.B") (GoError.base "*pkg.B" 2 "b0")
              (fun _ _ => (401, GoValue.str "b"))),
         (GoError.base "*pkg.A" 1 "a0",
            V3.mkHandler (ETy.conc "*pkg.A") (GoError.base "*pkg.A" 1 "a0")
              (fun _ _ => (400, GoValue.str "a")))] :=
  claimC5_amended_unique_match_order_independent 0
    (some (GoError.base "*pkg.A" 1 "a0")) (fun _ _ => (500, GoValue.nil))
    _ _
    (List.Perm.swap _ _ _)
    (by
      intro p hp q hq hpp hpq
      simp only [List.mem_cons, List.not_mem_nil, or_false] at hp hq
      rcases hp with rfl | rfl <;> rcases hq with rfl | rfl
      · rfl
      · exact absurd hpq (by decide)
      · exact absurd hpp (by decide)
      · rfl)

/-- Claim C10: in the v1 and v2 string-keyed designs, registering a custom
handler for the type string `"*errors.errorString"` overwrites the built-in
bridge entry installed by `NewErrorRegistry`, and afterwards no handler
registered via `RegisterStringErrorHandlerOn` is ever invoked: the dispatch
result is independent of the entire `stringHandlers` map (which is the only
place string registrations go — they never touch `handlers`). -/
theorem claimC10_custom_errorstring_overrides_bridge
    (r1 : V1.ErrorRegistry) (hc1 : Option GoError → Int × GoValue)
    (S1 S1b : String → Option (String → Int × GoValue))
    (r2 : V2.ErrorRegistry) (hc2 : Ctx → Option GoError → Int × GoValue)
    (S2 S2b : String → Option (Ctx → String → Int × GoValue))
    (ctx : Ctx) (err1 err2 : Option GoError)
    (hbr1 : ∀ k, r1.handlers k = some V1.Entry.bridge →
        k = "*errors.errorString")
    (hbr2 : ∀ k, r2.handlers k = some V2.Entry.bridge →
        k = "*errors.errorString") :
    (V1.RegisterCustomErrorTypeHandlerOn r1 "*errors.errorString" hc1).handlers
        "*errors.errorString" = some (V1.Entry.custom hc1)
    ∧ (∀ (r : V1.ErrorRegistry) s sh,
        (V1.RegisterStringErrorHandlerOn r s sh).handlers = r.handlers)
    ∧ V1.NewErrorResponseFrom
        { V1.RegisterCustomErrorTypeHandlerOn r1 "*errors.errorString" hc1 with
            stringHandlers := S1 } err1
      = V1.NewErrorResponseFrom
        { V1.RegisterCustomErrorTypeHandlerOn r1 "*errors.errorString" hc1 with
            stringHandlers := S1b } err1
    ∧ (V2.RegisterCustomErrorTypeHandlerOn r2 "*errors.errorString" hc2).handlers
        "*errors.errorString" = some (V2.Entry.custom hc2)
    ∧ (∀ (r : V2.ErrorRegistry) s sh,
        (V2.RegisterStringErrorHandlerOn r s sh).handlers = r.handlers)
    ∧ V2.NewContextErrorResponseFrom
        { V2.RegisterCustomErrorTypeHandlerOn r2 "*errors.errorString" hc2 with
            stringHandlers := S2 } ctx err2
      = V2.NewContextErrorResponseFrom
        { V2.RegisterCustomErrorTypeHandlerOn r2 "*errors.errorString" hc2 with
            stringHandlers := S2b } ctx err2 := by
  refine ⟨by simp [V1.RegisterCustomErrorTypeHandlerOn, setKey],
    fun r s sh => rfl, ?_, by simp [V2.RegisterCustomErrorTypeHandlerOn, setKey],
    fun r s sh => rfl, ?_⟩
  · by_cases hk : typeOfOpt err1 = "*errors.errorString"
    · simp [V1.NewErrorResponseFrom, V1.RegisterCustomErrorTypeHandlerOn,
        setKey, hk]
    · cases hcase : r1.handlers (typeOfOpt err1) with
      | none =>
          simp [V1.NewErrorResponseFrom, V1.RegisterCustomErrorTypeHandlerOn,
            setKey, hk, hcase]
      | some entry =>
          cases entry with
          | typed ety h =>
              simp [V1.NewErrorResponseFrom,
                V1.RegisterCustomErrorTypeHandlerOn, setKey, hk, hcase]
          | custom h =>
              simp [V1.NewErrorResponseFrom,
                V1.RegisterCustomErrorTypeHandlerOn, setKey, hk, hcase]
          | bridge => exact absurd (hbr1 _ hcase) hk
  · by_cases hk : typeOfOpt err2 = "*errors.errorString"
    · simp [V2.NewContextErrorResponseFrom,
        V2.RegisterCustomErrorTypeHandlerOn, setKey, hk]
    · cases hcase : r2.handlers (typeOfOpt err2) with
      | none =>
          simp [V2.NewContextErrorResponseFrom,
            V2.RegisterCustomErrorTypeHandlerOn, setKey, hk, hcase]
      | some entry =>
          cases entry with
          | typed ety h =>
              simp [V2.NewContextErrorResponseFrom,
                V2.RegisterCustomErrorTypeHandlerOn, setKey, hk, hcase]
          | custom h =>
              simp [V2.NewContextErrorResponseFrom,
                V2.RegisterCustomErrorTypeHandlerOn, setKey, hk, hcase]
          | bridge => exact absurd (hbr2 _ hcase) hk

/-- Witness for claim C10: on fresh v1 and v2 registries, overriding
`"*errors.errorString"` makes dispatch ignore a string handler registered
for the exact message of the dispatched generic error. -/
theorem claimC10_witness :
    (V1.RegisterCustomErrorTypeHandlerOn V1.NewErrorRegistry
        "*errors.errorString" (fun _ => (418, GoValue.str "teapot"))).handlers
        "*errors.errorString"
      = some (V1.Entry.custom (fun _ => (418, GoValue.str "teapot")))
    ∧ (∀ (r : V1.ErrorRegistry) s sh,
        (V1.RegisterStringErrorHandlerOn r s sh).handlers = r.handlers)
    ∧ V1.NewErrorResponseFrom
        { V1.RegisterCustomErrorTypeHandlerOn V1.NewErrorRegistry
            "*errors.errorString" (fun _ => (418, GoValue.str "teapot")) with
            stringHandlers := setKey (fun _ => none) "boom"
              (fun _ => (400, GoValue.str "boom")) }
        (some (GoError.base "*errors.errorString" 1 "boom"))
      = V1.NewErrorResponseFrom
        { V1.RegisterCustomErrorTypeHandlerOn V1.NewErrorRegistry
            "*errors.errorString" (fun _ => (418, GoValue.str "teapot")) with
            stringHandlers := fun _ => none }
        (some (GoError.base "*errors.errorString" 1 "boom"))
    ∧ (V2.RegisterCustomErrorTypeHandlerOn V2.NewErrorRegistry
        "*errors.errorString" (fun _ _ => (418, GoValue.str "teapot"))).handlers
        "*errors.errorString"
      = some (V2.Entry.custom (fun _ _ => (418, GoValue.str "teapot")))
    ∧ (∀ (r : V2.ErrorRegistry) s sh,
        (V2.RegisterStringErrorHandlerOn r s sh).handlers = r.handlers)
    ∧ V2.NewContextErrorResponseFrom
        { V2.RegisterCustomErrorTypeHandlerOn V2.NewErrorRegistry
            "*errors.errorString" (fun _ _ => (418, GoValue.str "teapot")) with
            stringHandlers := setKey (fun _ => none) "boom"
              (fun _ _ => (400, GoValue.str "boom")) }
        0 (some (GoError.base "*errors.errorString" 1 "boom"))
      = V2.NewContextErrorResponseFrom
        { V2.RegisterCustomErrorTypeHandlerOn V2.NewErrorRegistry
            "*errors.errorString" (fun _ _ => (418, GoValue.str "teapot")) with
            stringHandlers := fun _ => none }
        0 (some (GoError.base "*errors.errorString" 1 "boom")) :=
  claimC10_custom_errorstring_overrides_bridge V1.NewErrorRegistry
    (fun _ => (418, GoValue.str "teapot"))
    (setKey (fun _ => none) "boom" (fun _ => (400, GoValue.str "boom")))
    (fun _ => none)
    V2.NewErrorRegistry (fun _ _ => (418, GoValue.str "teapot"))
    (setKey (fun _ => none) "boom" (fun _ _ => (400, GoValue.str "boom")))
    (fun _ => none)
    0 (some (GoError.base "*errors.errorString" 1 "boom"))
    (some (GoError.base "*errors.errorString" 1 "boom"))
    (by
      intro k hk
      by_cases hke : k = "*errors.errorString"
      · exact hke
      · simp [V1.NewErrorRegistry, hke] at hk)
    (by
      intro k hk
      by_cases hke : k = "*errors.errorString"
      · exact hke
      · simp [V2.NewErrorRegistry, hke] at hk)

theorem v2t_inv_new (ops : List V2t.RegOp) :
    V2t.Inv ops V2t.NewErrorRegistry := by
  intro k
  constructor
  · intro pkg ety h hk
    by_cases hb : k = "*errors.errorString" <;>
      simp [V2t.NewErrorRegistry, hb] at hk
  · intro hk
    by_cases hb : k = "*errors.errorString"
    · exact hb
    · simp [V2t.NewErrorRegistry, hb] at hk

theorem v2t_inv_apply (ops : List V2t.RegOp) (reg : V2t.ErrorRegistry)
    (op : V2t.RegOp) (hinv : V2t.Inv ops reg) (hmem : op ∈ ops)
    (hop : V2t.goodOp op) : V2t.Inv ops (V2t.applyOp reg op) := by
  cases op with
  | typed pkg ety h =>
      intro k
      constructor
      · intro pkg2 ety2 h2 hk
        by_cases hke : k = ety
        · simp [V2t.applyOp, V2t.RegisterErrorHandlerOn, setKey, hke] at hk
          obtain ⟨hpkg, hety, _⟩ := hk
          refine ⟨by rw [← hety, hke], by rw [hke]; exact hop, h, ?_⟩
          rw [← hpkg, ← hety]
          exact hmem
        · simp [V2t.applyOp, V2t.RegisterErrorHandlerOn, setKey, hke] at hk
          exact (hinv k).1 pkg2 ety2 h2 hk
      · intro hk
        by_cases hke : k = ety
        · simp [V2t.applyOp, V2t.RegisterErrorHandlerOn, setKey, hke] at hk
        · simp [V2t.applyOp, V2t.RegisterErrorHandlerOn, setKey, hke] at hk
          exact (hinv k).2 hk
  | custom key h =>
      intro k
      constructor
      · intro pkg2 ety2 h2 hk
        by_cases hke : k = key
        · simp [V2t.applyOp, V2t.RegisterCustomErrorTypeHandlerOn, setKey,
            hke] at hk
        · simp [V2t.applyOp, V2t.RegisterCustomErrorTypeHandlerOn, setKey,
            hke] at hk
          exact (hinv k).1 pkg2 ety2 h2 hk
      · intro hk
        by_cases hke : k = key
        · simp [V2t.applyOp, V2t.RegisterCustomErrorTypeHandlerOn, setKey,
            hke] at hk
        · simp [V2t.applyOp, V2t.RegisterCustomErrorTypeHandlerOn, setKey,
            hke] at hk
          exact (hinv k).2 hk
  | strKey s h => exact hinv
  | setDefault c r => exact hinv

theorem v2t_inv_foldl (ops : List V2t.RegOp) :
    ∀ (rest : List V2t.RegOp) (reg : V2t.ErrorRegistry),
    V2t.Inv ops reg → (∀ op ∈ rest, op ∈ ops) →
    (∀ op ∈ rest, V2t.goodOp op) →
    V2t.Inv ops (rest.foldl V2t.applyOp reg)
  | [], _, h, _, _ => h
  | op :: rest, reg, h, hsub, hops =>
      v2t_inv_foldl ops rest _
        (v2t_inv_apply ops reg op h (hsub op (List.mem_cons_self _ _))
          (hops op (List.mem_cons_self _ _)))
        (fun o ho => hsub o (List.mem_cons_of_mem _ ho))
        (fun o ho => hops o (List.mem_cons_of_mem _ ho))

/-- Claim C8 counterexample: resolve can panic.  Go printed type names
(`fmt.Sprintf("%T", ...)`) are not unique among types: distinct types
`a/models.Err` and `b/models.Err` both print `"*models.Err"`.  Registering a
handler for `*a/models.Err` (a legitimate registration) and dispatching a
`*b/models.Err` makes the lookup hit the entry and the stored `err.(E)`
assertion fail — the dispatch panics (`none`) instead of returning a
result. -/
theorem claimC8_counterexample_type_name_collision_panics :
    V2t.NewContextErrorResponseFrom
        (V2t.buildRegistry
          [V2t.RegOp.typed "a/models" "*models.Err"
            (fun _ _ => (400, GoValue.str "a"))])
        0 (some ⟨"b/models", "*models.Err", 1, "x"⟩)
      = none
    ∧ (∀ op ∈ [V2t.RegOp.typed "a/models" "*models.Err"
          (fun _ _ => (400, GoValue.str "a"))], V2t.goodOp op) := by
  constructor
  · rfl
  · intro op hop
    simp only [List.mem_singleton] at hop
    subst hop
    exact (by decide : ("*models.Err" : String) ≠ "<nil>")

/-- Claim C8 (amended): dispatch on a v2 registry built through the
registration API never panics provided no dispatched error's dynamic type
shares its printed `%T` name with a different registered type — the
registered type under the error's key, if any, is the error's own type; and
unconditionally, an error whose dynamic-type key has no entry (in
particular the nil error on a registry that never registered the `"<nil>"`
key) falls through to the default `(DefaultCode, DefaultResponse)` rather
than raising. -/
theorem claimC8_amended_no_panic_without_name_collision
    (ops : List V2t.RegOp) (ctx : Ctx) (err : Option V2t.GoTyError)
    (hops : ∀ op ∈ ops, V2t.goodOp op)
    (hnocol : ∀ pkg h, V2t.RegOp.typed pkg (V2t.typeOfOptT err) h ∈ ops →
        ∀ e, err = some e → e.pkg = pkg) :
    (V2t.NewContextErrorResponseFrom (V2t.buildRegistry ops) ctx err).isSome
      = true
    ∧ ((V2t.buildRegistry ops).handlers (V2t.typeOfOptT err) = none →
        V2t.NewContextErrorResponseFrom (V2t.buildRegistry ops) ctx err
          = some ((V2t.buildRegistry ops).DefaultCode,
              (V2t.buildRegistry ops).DefaultResponse)) := by
  constructor
  · have hinv : V2t.Inv ops (V2t.buildRegistry ops) :=
      v2t_inv_foldl ops ops V2t.NewErrorRegistry (v2t_inv_new ops)
        (fun o ho => ho) hops
    unfold V2t.NewContextErrorResponseFrom
    cases hk : (V2t.buildRegistry ops).handlers (V2t.typeOfOptT err) with
    | none => rfl
    | some entry =>
        cases entry with
        | custom h => rfl
        | typed pkg ety h =>
            obtain ⟨hety, hnil, h2, hmem⟩ :=
              (hinv (V2t.typeOfOptT err)).1 pkg ety h hk
            cases err with
            | none => exact absurd rfl hnil
            | some e =>
                have hpk : e.pkg = pkg := hnocol pkg h2 (hety ▸ hmem) e rfl
                simp [hpk, show e.ty = ety from hety.symm]
        | bridge =>
            have hb := (hinv (V2t.typeOfOptT err)).2 hk
            cases err with
            | none => exact absurd hb (by decide)
            | some e => rfl
  · intro hmiss
    simp [V2t.NewContextErrorResponseFrom, hmiss]

/-- Witness for the amended claim C8: one typed registration for
`*a/models.Err`, dispatching an error of exactly that type (no printed-name
collision) and, within the same registry, the nil error on the unregistered
`"<nil>"` key. -/
theorem claimC8_amended_witness :
    ((V2t.NewContextErrorResponseFrom
        (V2t.buildRegistry
          [V2t.RegOp.typed "a/models" "*models.Err"
            (fun _ _ => (400, GoValue.str "a"))])
        0 (some ⟨"a/models", "*models.Err", 1, "x"⟩)).isSome = true
      ∧ ((V2t.buildRegistry
            [V2t.RegOp.typed "a/models" "*models.Err"
              (fun _ _ => (400, GoValue.str "a"))]).handlers
            (V2t.typeOfOptT (some ⟨"a/models", "*models.Err", 1, "x"⟩))
            = none →
          V2t.NewContextErrorResponseFrom
            (V2t.buildRegistry
              [V2t.RegOp.typed "a/models" "*models.Err"
                (fun _ _ => (400, GoValue.str "a"))])
            0 (some ⟨"a/models", "*models.Err", 1, "x"⟩)
          = some ((V2t.buildRegistry
                [V2t.RegOp.typed "a/models" "*models.Err"
                  (fun _ _ => (400, GoValue.str "a"))]).DefaultCode,
              (V2t.buildRegistry
                [V2t.RegOp.typed "a/models" "*models.Err"
                  (fun _ _ => (400, GoValue.str "a"))]).DefaultResponse)))
    ∧ ((V2t.NewContextErrorResponseFrom
        (V2t.buildRegistry
          [V2t.RegOp.typed "a/models" "*models.Err"
            (fun _ _ => (400, GoValue.str "a"))])
        0 none).isSome = true
      ∧ ((V2t.buildRegistry
            [V2t.RegOp.typed "a/models" "*models.Err"
              (fun _ _ => (400, GoValue.str "a"))]).handlers
            (V2t.typeOfOptT none) = none →
          V2t.NewContextErrorResponseFrom
            (V2t.buildRegistry
              [V2t.RegOp.typed "a/models" "*models.Err"
                (fun _ _ => (400, GoValue.str "a"))])
            0 none
          = some ((V2t.buildRegistry
                [V2t.RegOp.typed "a/models" "*models.Err"
                  (fun _ _ => (400, GoValue.str "a"))]).DefaultCode,
              (V2t.buildRegistry
                [V2t.RegOp.typed "a/models" "*models.Err"
                  (fun _ _ => (400, GoValue.str "a"))]).DefaultResponse))) := by
  constructor
  · exact claimC8_amended_no_panic_without_name_collision
      [V2t.RegOp.typed "a/models" "*models.Err"
        (fun _ _ => (400, GoValue.str "a"))]
      0 (some ⟨"a/models", "*models.Err", 1, "x"⟩)
      (by
        intro op hop
        simp only [List.mem_singleton] at hop
        subst hop
        exact (by decide : ("*models.Err" : String) ≠ "<nil>"))
      (by
        intro pkg h hmem e he
        simp only [List.mem_singleton, V2t.RegOp.typed.injEq] at hmem
        obtain ⟨hp, -, -⟩ := hmem
        cases he
        simp [hp])
  · exact claimC8_amended_no_panic_without_name_collision
      [V2t.RegOp.typed "a/models" "*models.Err"
        (fun _ _ => (400, GoValue.str "a"))]
      0 none
      (by
        intro op hop
        simp only [List.mem_singleton] at hop
        subst hop
        exact (by decide : ("*models.Err" : String) ≠ "<nil>"))
      (by
        intro pkg h hmem e he
        cases he)
